import Mathlib

/-!
Shallow embedding of the WebNN execution provider's graph-lowering core
(onnxruntime, `core/providers/webnn`): operator support checks, operator
lowering, the model builder's registration passes, and the compiled model's
`Predict` call.  Machine floats that the C++ code widens through `float` /
`double` are modelled as exact rationals; backend operands are modelled
symbolically as the tree of builder calls that produced them.
-/

namespace ORTWebNN

/- ONNX `TensorProto_DataType` codes used by this subsystem. -/
def TensorProto_DataType_FLOAT : Int := 1
def TensorProto_DataType_INT32 : Int := 6
def TensorProto_DataType_INT64 : Int := 7
def TensorProto_DataType_STRING : Int := 8

/-- An initializer (`ONNX_NAMESPACE::TensorProto`): name, static dims,
element datatype, and the decoded element payload (the raw or typed bytes
reinterpreted according to `dataType`; integer elements appear as integral
rationals, which is the widening the C++ code performs when it reads them). -/
structure TensorProtoT where
  name : String
  dims : List Int
  dataType : Int
  data : List ℚ
deriving DecidableEq, Repr

/-- A `NodeArg`: tensor name, optional shape proto (an entry is `none` when
the dimension has no `dim_value`, i.e. is symbolic), optional element type. -/
structure NodeArg where
  name : String
  shape : Option (List (Option Int))
  elemType : Option Int
deriving DecidableEq, Repr

instance : Inhabited NodeArg := ⟨⟨"", none, none⟩⟩

/-- Attributes of a node, as `NodeAttrHelper` reads them (typed lookup with a
caller-supplied default). -/
structure NodeAttributes where
  ints : List (String × Int) := []
  floats : List (String × ℚ) := []
  strings : List (String × String) := []
  stringLists : List (String × List String) := []
deriving DecidableEq, Repr

/-- Association-list lookup (the `std::unordered_map` / `List::lookup` of the
embedding; first binding wins, so updates prepend). -/
def alistGet {κ α : Type} [DecidableEq κ] : List (κ × α) → κ → Option α
  | [], _ => none
  | (k, v) :: rest, key => if key = k then some v else alistGet rest key

/-- `NodeAttrHelper::Get` for an int attribute. -/
def getIntAttr (a : NodeAttributes) (key : String) (dflt : Int) : Int :=
  (alistGet a.ints key).getD dflt

/-- `NodeAttrHelper::Get` for a float attribute. -/
def getFloatAttr (a : NodeAttributes) (key : String) (dflt : ℚ) : ℚ :=
  (alistGet a.floats key).getD dflt

/-- `NodeAttrHelper::Get` for a string attribute. -/
def getStringAttr (a : NodeAttributes) (key : String) (dflt : String) : String :=
  (alistGet a.strings key).getD dflt

/-- `NodeAttrHelper::Get` for a string-list attribute. -/
def getStringListAttr (a : NodeAttributes) (key : String) (dflt : List String) : List String :=
  (alistGet a.stringLists key).getD dflt

/-- An output edge of a node: the consuming node's index and the name of the
`NodeArg` the consumer reads at its destination argument slot
(`it->GetNode().InputDefs()[it->GetDstArgIndex()]`). -/
structure OutputEdge where
  dstNodeIndex : Nat
  dstInputName : String
deriving DecidableEq, Repr

/-- A graph node (operator invocation). -/
structure Node where
  index : Nat
  name : String
  opType : String
  inputDefs : List NodeArg
  outputDefs : List NodeArg
  attributes : NodeAttributes
  outputEdges : List OutputEdge := []
deriving DecidableEq, Repr

/-- Modelled from the spec: `GetStaticShape(tensorRef) -> shape | NotAvailable`
(§4.1).  The definition of `GetShape` lives in `helper.cc`, which is not among
the repository files provided; per the spec it reads the static shape
annotation and fails if the annotation is missing or any dimension is
symbolic. -/
def GetShape (arg : NodeArg) : Option (List Int) :=
  match arg.shape with
  | none => none
  | some dims => dims.mapM id

/-- `Product` of a shape's dimensions (int64 accumulate with seed 1). -/
def Product (dims : List Int) : Int := dims.foldl (fun a b => a * b) 1

/-- `GemmOpBuilder::IsOpSupportedImpl` (gemm_op_builder.cc:67-134).  The
support checks apply only to `Gemm`; `MatMul` falls through to `true`. -/
def gemmIsOpSupportedImpl (node : Node) : Bool :=
  if node.opType = "Gemm" then
    match GetShape (node.inputDefs.getD 0 default) with
    | none => false
    | some a_shape =>
      if a_shape.length ≠ 2 then false
      else if Product a_shape = 0 then false
      else
        match GetShape (node.inputDefs.getD 1 default) with
        | none => false
        | some b_shape =>
          if b_shape.length ≠ 2 then false
          else if Product b_shape = 0 then false
          else if node.inputDefs.length = 3 then
            match GetShape (node.inputDefs.getD 2 default) with
            | none => false
            | some c_shape =>
              if c_shape.length = 0 then true
              else
                let c_size := c_shape.getD (c_shape.length - 1) 0
                let transB := getIntAttr node.attributes "transB" 0
                decide (c_size = if transB = 0 then b_shape.getD 1 0 else b_shape.getD 0 0)
          else true
  else true

/-- The claim's conditions on a supported `Gemm` node, stated from the spec:
A and B have static rank-2 shapes with nonzero element count, and a present
third input C of nonzero rank has trailing dimension equal to B's column
dimension (`transB = 0`) or B's row dimension (`transB = 1`). -/
def GemmClaimConditions (node : Node) : Prop :=
  ∃ a_shape b_shape,
    GetShape (node.inputDefs.getD 0 default) = some a_shape ∧
    a_shape.length = 2 ∧ Product a_shape ≠ 0 ∧
    GetShape (node.inputDefs.getD 1 default) = some b_shape ∧
    b_shape.length = 2 ∧ Product b_shape ≠ 0 ∧
    (∀ c_shape, node.inputDefs.length = 3 →
      GetShape (node.inputDefs.getD 2 default) = some c_shape →
      c_shape ≠ [] →
      c_shape.getD (c_shape.length - 1) 0 =
        if getIntAttr node.attributes "transB" 0 = 0 then b_shape.getD 1 0
        else b_shape.getD 0 0)

/-- A backend activation-operator handle (`::ml::Operator` /
`::wnn::FusionOperator`), tagged by the builder call that produced it. -/
inductive FusionOp where
  | relu
  | sigmoid
  | tanh
  | leakyRelu (alpha : ℚ)
  | clamp (minValue maxValue : ℚ)
deriving DecidableEq, Repr

/-- `::ml::RecurrentNetworkDirection`. -/
inductive RecurrentNetworkDirection where
  | forward
  | backward
  | both
deriving DecidableEq, Repr

/-- A backend operand handle, modelled symbolically as the tree of graph
builder calls that produced it (constants, inputs, and each emitted op).
`null` is the null handle a default-constructed/unset option member holds. -/
inductive Operand where
  | null
  | input (name : String)
  | const (dims : List Int) (data : List ℚ)
  | relu (x : Operand)
  | leakyRelu (alpha : ℚ) (x : Operand)
  | split (x : Operand) (splits : List Int) (axis : Int) (outIndex : Nat)
  | gru (x w r : Operand) (steps : ℚ) (hiddenSize : Int)
      (bias recurrentBias initialHiddenState : Operand)
      (resetAfter returnSequence : Bool)
      (direction : RecurrentNetworkDirection) (rznLayout : Bool)
      (activations : List FusionOp) (outIndex : Nat)
  | fillSequence (dims : List Int) (start delta : ℚ)
  | cast (x : Operand) (operandType : String)
  | gemm (a b : Operand) (aTranspose bTranspose : Bool) (alpha beta : ℚ) (c : Operand)
  | matmul (a b : Operand)
deriving DecidableEq, Repr

/-- `OnnxTensorInfo` (model.h): datatype plus static shape. -/
structure OnnxTensorInfo where
  dataType : Int
  shape : List Int
deriving DecidableEq, Repr

/-- The `ModelBuilder`'s state during one compilation, together with the
read-only graph data it consults (`graph_viewer_`'s initializer table and
graph-output list). -/
structure ModelBuilderState where
  initializers : List TensorProtoT := []
  graphOutputs : List String := []
  operands : List (String × Operand) := []
  inputNames : List String := []
  outputNames : List String := []
  scalarOutputs : List String := []
  inputOutputInfo : List (String × OnnxTensorInfo) := []
  skippedInitializers : List String := []
  skippedInputs : List String := []
  fusedActivations : List String := []
  activationNodes : List (Nat × FusionOp) := []
deriving DecidableEq, Repr

/-- `std::unordered_set` insert. -/
def setInsert (s : List String) (x : String) : List String :=
  if x ∈ s then s else x :: s

/-- `ModelBuilder::AddOperand` (`operands_[name] = operand`, overwrite). -/
def addOperand (st : ModelBuilderState) (name : String) (op : Operand) : ModelBuilderState :=
  { st with operands := (name, op) :: st.operands }

/-- `ModelBuilder::AddScalarOutput`. -/
def addScalarOutput (st : ModelBuilderState) (name : String) : ModelBuilderState :=
  { st with scalarOutputs := setInsert st.scalarOutputs name }

/-- Lookup in the graph's initializer table (`Contains` / `initializers.at`). -/
def findInitializerTensor (initializers : List TensorProtoT) (name : String) :
    Option TensorProtoT :=
  initializers.find? (fun t => t.name == name)

/-- `model_builder.GetInitializerTensors()` lookup. -/
def getInitializer (st : ModelBuilderState) (name : String) : Option TensorProtoT :=
  findInitializerTensor st.initializers name

/-- `ModelBuilder::GetOperand` (`wnn_operands_.at(name)`; `at` throws when the
name is absent, surfaced here as an error). -/
def getOperandE (st : ModelBuilderState) (name : String) : Except String Operand :=
  match alistGet st.operands name with
  | some op => .ok op
  | none => .error ("GetOperand: no operand is registered with name " ++ name)

/-- `std::unordered_map::emplace`: inserts only when the key is absent. -/
def emplaceInfo (m : List (String × OnnxTensorInfo)) (name : String) (info : OnnxTensorInfo) :
    List (String × OnnxTensorInfo) :=
  if (alistGet m name).isSome then m else (name, info) :: m

/-- The per-edge loop of `ModelBuilder::FindActivation`
(model_builder.cc:317-330): scan the producer's output edges; a consumer of
`outputName` that is a recorded activation node overwrites the fused handle,
and any other consumer of `outputName` returns the null handle at once
(`none`). -/
def findActivationLoop (activationNodes : List (Nat × FusionOp)) (outputName : String) :
    List OutputEdge → Option FusionOp → Option FusionOp
  | [], fusedOp => fusedOp
  | e :: rest, fusedOp =>
    match alistGet activationNodes e.dstNodeIndex with
    | some handle =>
      if e.dstInputName = outputName then
        findActivationLoop activationNodes outputName rest (some handle)
      else findActivationLoop activationNodes outputName rest fusedOp
    | none =>
      if e.dstInputName = outputName then none
      else findActivationLoop activationNodes outputName rest fusedOp

/-- `ModelBuilder::FindActivation` (model_builder.cc:314-346): the loop above,
then the graph-output check, then the fused-name bookkeeping.  Returns the
fusion handle (`none` is the null `FusionOperator`) and the updated builder
state. -/
def FindActivation (st : ModelBuilderState) (node : Node) (outputName : String) :
    Option FusionOp × ModelBuilderState :=
  match findActivationLoop st.activationNodes outputName node.outputEdges none with
  | none => (none, st)
  | some fused_op =>
    if outputName ∈ st.graphOutputs then (none, st)
    else (some fused_op, { st with fusedActivations := setInsert st.fusedActivations outputName })

/-- One iteration of `ModelBuilder::RegisterInitializers`
(model_builder.cc:139-177): skip claimed names; a rank-0 initializer gets
shape `{1}`; float32 data becomes a backend constant; any other datatype is a
fatal error. -/
def registerOneInitializer (st : ModelBuilderState) (t : TensorProtoT) :
    Except String ModelBuilderState :=
  if t.name ∈ st.skippedInitializers then .ok st
  else if t.dataType = TensorProto_DataType_FLOAT then
    .ok (addOperand st t.name (.const (if t.dims = [] then [1] else t.dims) t.data))
  else
    .error ("The initializer of graph has unsupported type, name: " ++ t.name)

/-- The fold of `RegisterInitializers` over the initializer table. -/
def registerInitializersFrom (st : ModelBuilderState) :
    List TensorProtoT → Except String ModelBuilderState
  | [] => .ok st
  | t :: rest =>
    match registerOneInitializer st t with
    | .error e => .error e
    | .ok st2 => registerInitializersFrom st2 rest

/-- `ModelBuilder::RegisterInitializers`. -/
def RegisterInitializers (st : ModelBuilderState) : Except String ModelBuilderState :=
  registerInitializersFrom st st.initializers

/-- `ModelBuilder::RegisterModelInputOutput` (model_builder.cc:182-263).
An error propagates upward and aborts the compilation, so builder state
staged before the error is dropped together with the aborted compile. -/
def registerModelInputOutput (st : ModelBuilderState) (arg : NodeArg) (is_input : Bool) :
    Except String ModelBuilderState :=
  let name := arg.name
  if is_input ∧ ((getInitializer st name).isSome ∨ name ∈ st.skippedInputs) then .ok st
  else
    match arg.shape with
    | none => .error ("shape_proto cannot be null for " ++ name)
    | some shapeProto =>
      let dims : List Int :=
        if shapeProto = [] then [1] else shapeProto.map (fun d => d.getD 1)
      let st1 := if shapeProto = [] ∧ is_input = false then addScalarOutput st name else st
      match arg.elemType with
      | none => .error ("The graph input or output doesn't have elem_type: " ++ name)
      | some data_type =>
        if data_type = TensorProto_DataType_FLOAT then
          let st2 :=
            if is_input then
              { addOperand st1 name (.input name) with inputNames := st1.inputNames ++ [name] }
            else { st1 with outputNames := st1.outputNames ++ [name] }
          .ok { st2 with inputOutputInfo := emplaceInfo st2.inputOutputInfo name ⟨data_type, dims⟩ }
        else
          .error ("The graph input or output doesn't have valid type, name: " ++ name)

/-- The compiled `Model` (model.h): backend graph plus captured metadata. -/
structure Model where
  scalarOutputs : List String
  inputs : List String
  outputs : List String
  inputOutputInfo : List (String × OnnxTensorInfo)
deriving DecidableEq, Repr

/-- The tail of `ModelBuilder::Compile` (model_builder.cc:306-310): moves the
captured name lists, scalar-output set and metadata into the `Model`. -/
def compileModel (st : ModelBuilderState) : Model :=
  { scalarOutputs := st.scalarOutputs, inputs := st.inputNames,
    outputs := st.outputNames, inputOutputInfo := st.inputOutputInfo }

/-- `Model::IsScalarOutput` (model.cc:83-85). -/
def Model.IsScalarOutput (m : Model) (output_name : String) : Bool :=
  decide (output_name ∈ m.scalarOutputs)

/-- A host tensor handed to `Predict`. -/
structure OnnxTensorData where
  info : OnnxTensorInfo
  buffer : List ℚ
deriving DecidableEq, Repr

/-- `emscripten::typed_memory_view(num_elements, buffer)`. -/
structure BufferView where
  numElements : Int
  data : List ℚ
deriving DecidableEq, Repr

/-- The model's persistent `wnn_inputs_` / `wnn_outputs_` binding objects. -/
structure WnnBindings where
  wnnInputs : List (String × BufferView) := []
  wnnOutputs : List (String × BufferView) := []
deriving DecidableEq, Repr

/-- Observable actions of one `Predict` call, in order. -/
inductive PredictEvent where
  | bindInput (name : String)
  | bindOutput (name : String)
  | computeSync
deriving DecidableEq, Repr

/-- One binding loop of `Model::Predict` (model.cc:29-44 for inputs,
54-69 for outputs): each named tensor must be float32, otherwise a fatal
type error is returned before anything further runs; a good tensor is bound
as a buffer view over `Product(shape)` elements. -/
def bindTensors (isInput : Bool) (b : WnnBindings) :
    List (String × OnnxTensorData) → Option String × WnnBindings × List PredictEvent
  | [] => (none, b, [])
  | (name, t) :: rest =>
    if t.info.dataType = TensorProto_DataType_FLOAT then
      let view : BufferView := ⟨Product t.info.shape, t.buffer⟩
      let b2 :=
        if isInput then { b with wnnInputs := (name, view) :: b.wnnInputs }
        else { b with wnnOutputs := (name, view) :: b.wnnOutputs }
      let res := bindTensors isInput b2 rest
      (res.1, res.2.1, (if isInput then PredictEvent.bindInput name
                        else PredictEvent.bindOutput name) :: res.2.2)
    else
      (some ("The input of graph has unsupported type, name: " ++ name), b, [])

/-- `Model::Predict` (model.cc:27-81): bind every named input, then every
named output, then issue the single synchronous `computeSync` call.  Returns
the error (if any), the persistent bindings left behind, and the ordered
event trace of the call. -/
def Model.Predict (_m : Model) (b : WnnBindings)
    (inputs outputs : List (String × OnnxTensorData)) :
    Option String × WnnBindings × List PredictEvent :=
  match bindTensors true b inputs with
  | (some e, b2, evs) => (some e, b2, evs)
  | (none, b2, evs) =>
    match bindTensors false b2 outputs with
    | (some e, b3, evs2) => (some e, b3, evs ++ evs2)
    | (none, b3, evs2) => (none, b3, evs ++ evs2 ++ [PredictEvent.computeSync])

/-- The activation-name mapping of `GruOpBuilder::AddToModelBuilderImpl`
(gru_op_builder.cc:118-131): only `Relu`, `Sigmoid` and `Tanh` map to backend
activation operators; any other name is a fatal unsupported-activation
error. -/
def mapGruActivation (activation : String) : Except String FusionOp :=
  if activation = "Relu" then .ok .relu
  else if activation = "Sigmoid" then .ok .sigmoid
  else if activation = "Tanh" then .ok .tanh
  else .error ("GruOpBuilder::AddToModelBuilderImpl, unsupported activation: " ++ activation)

/-- The loop that fills the backend operator array from the activation list,
in declared order; the first unsupported name aborts. -/
def buildGruActivations : List String → Except String (List FusionOp)
  | [] => .ok []
  | a :: rest =>
    match mapGruActivation a with
    | .error e => .error e
    | .ok op =>
      match buildGruActivations rest with
      | .error e => .error e
      | .ok ops => .ok (op :: ops)

/-- The default value the code passes for the `activations` attribute
(gru_op_builder.cc:117): note the source spells `"Sigmod"`. -/
def gruDefaultActivations : List String := ["Sigmod", "Tanh"]

/-- The bias handling of GRU lowering (gru_op_builder.cc:76-86): when a bias
input is present and is an initializer, its operand is split in two halves
along axis 1 (`splits = {2}`), giving the backend `bias` and `recurrentBias`
options. -/
def gruBiasOperands (st : ModelBuilderState) (input_defs : List NodeArg) :
    Except String (Operand × Operand) :=
  if input_defs.length > 3 ∧ (getInitializer st (input_defs.getD 3 default).name).isSome = true then
    match getOperandE st (input_defs.getD 3 default).name with
    | .error e => .error e
    | .ok biasOperand =>
      .ok (.split biasOperand [2] 1 0, .split biasOperand [2] 1 1)
  else .ok (.null, .null)

/-- The optional sixth GRU input (gru_op_builder.cc:89-92). -/
def gruInitialHiddenState (st : ModelBuilderState) (input_defs : List NodeArg) :
    Except String Operand :=
  if input_defs.length > 5 then
    match getOperandE st (input_defs.getD 5 default).name with
    | .error e => .error e
    | .ok v => .ok v
  else .ok .null

/-- `GruOpBuilder::AddToModelBuilderImpl` (gru_op_builder.cc:46-141).  The
unchecked C++ accesses `recurrentWeight_shape[2]`, `raw_sequenceLens[0]` and
`input_shape[0]` are modelled with a default of 0 for an absent entry. -/
def gruAddToModelBuilderImpl (st : ModelBuilderState) (node : Node) :
    Except String ModelBuilderState :=
  let input_defs := node.inputDefs
  match getOperandE st (input_defs.getD 0 default).name with
  | .error e => .error e
  | .ok input =>
  match getOperandE st (input_defs.getD 1 default).name with
  | .error e => .error e
  | .ok weight =>
  match getOperandE st (input_defs.getD 2 default).name with
  | .error e => .error e
  | .ok recurrentWeight =>
  match GetShape (input_defs.getD 0 default) with
  | none => .error "Cannot get shape"
  | some input_shape =>
  let steps : ℚ :=
    if input_defs.length > 4 then
      match getInitializer st (input_defs.getD 4 default).name with
      | some sequenceLens_tensor => sequenceLens_tensor.data.getD 0 0
      | none => ((input_shape.getD 0 0 : Int) : ℚ)
    else ((input_shape.getD 0 0 : Int) : ℚ)
  match getInitializer st (input_defs.getD 2 default).name with
  | none => .error "initializers.at: the recurrent weight tensor is not an initializer"
  | some recurrentWeight_tensor =>
  let hiddenSize : Int :=
    getIntAttr node.attributes "hidden_size" (recurrentWeight_tensor.dims.getD 2 0)
  match gruBiasOperands st input_defs with
  | .error e => .error e
  | .ok biasOperands =>
  match gruInitialHiddenState st input_defs with
  | .error e => .error e
  | .ok initialHiddenState =>
  let resetAfter : Bool := decide (getIntAttr node.attributes "linear_before_reset" 0 ≠ 0)
  let direction :=
    let d := getStringAttr node.attributes "direction" "forward"
    if d = "reverse" then RecurrentNetworkDirection.backward
    else if d = "bidirectional" then RecurrentNetworkDirection.both
    else RecurrentNetworkDirection.forward
  let rznLayout : Bool := decide (getIntAttr node.attributes "layout" 0 = 1)
  match buildGruActivations
      (getStringListAttr node.attributes "activations" gruDefaultActivations) with
  | .error e => .error e
  | .ok activationOperators =>
  let output : Nat → Operand := fun i =>
    .gru input weight recurrentWeight steps hiddenSize
      biasOperands.1 biasOperands.2 initialHiddenState
      resetAfter true direction rznLayout activationOperators i
  .ok (addOperand (addOperand st (node.outputDefs.getD 0 default).name (output 1))
        (node.outputDefs.getD 1 default).name (output 0))

/-- `ActivationOpBuilder::AddToModelBuilderImpl` (activation_op_builder.cc:
29-59): a Relu/LeakyRelu whose input name is in the fused-activation set
becomes an identity pass-through (output operand := input operand, no op
emitted); otherwise the unary backend op is emitted (LeakyRelu with scalar
`alpha`, default 0.0). -/
def activationAddToModelBuilderImpl (st : ModelBuilderState) (node : Node) :
    Except String ModelBuilderState :=
  let inputName := (node.inputDefs.getD 0 default).name
  match getOperandE st inputName with
  | .error e => .error e
  | .ok input =>
    if node.opType = "Relu" then
      let output := if inputName ∈ st.fusedActivations then input else .relu input
      .ok (addOperand st (node.outputDefs.getD 0 default).name output)
    else if node.opType = "LeakyRelu" then
      let output :=
        if inputName ∈ st.fusedActivations then input
        else .leakyRelu (getFloatAttr node.attributes "alpha" 0) input
      .ok (addOperand st (node.outputDefs.getD 0 default).name output)
    else
      .error ("ActivationOpBuilder::AddToModelBuilderImpl, unknown op: " ++ node.opType)

/-- `CopyInputData` inside `RangeOpBuilder::AddToModelBuilderImpl`
(range_op_builder.cc:49-77): reads the first element of the named
initializer, widened to float; float32/int32/int64 are the supported source
datatypes. -/
def copyInputData (st : ModelBuilderState) (node : Node) (input_idx : Nat) :
    Except String ℚ :=
  if input_idx ≥ node.inputDefs.length then .error "Invalid input index"
  else
    match getInitializer st (node.inputDefs.getD input_idx default).name with
    | none => .error "initializers.at: the input is not an initializer"
    | some tensor =>
      if tensor.dataType = TensorProto_DataType_FLOAT then .ok (tensor.data.getD 0 0)
      else if tensor.dataType = TensorProto_DataType_INT32 then .ok (tensor.data.getD 0 0)
      else if tensor.dataType = TensorProto_DataType_INT64 then .ok (tensor.data.getD 0 0)
      else .error "Unsupported data type: "

/-- Modelled from the spec: `GetWebNNType` (its definition is in repository
code not among the provided files); §4.2 Range: "Output is produced at
float32 precision then cast back to the inputs' original element datatype",
so the supported datatypes map to the backend's type tags. -/
def GetWebNNType (dataType : Int) : Except String String :=
  if dataType = TensorProto_DataType_FLOAT then .ok "float32"
  else if dataType = TensorProto_DataType_INT32 then .ok "int32"
  else if dataType = TensorProto_DataType_INT64 then .ok "int64"
  else .error "GetWebNNType: unsupported data type"

/-- `RangeOpBuilder::AddToModelBuilderImpl` (range_op_builder.cc:40-103):
unpack start/limit/delta, compute the output length
`max(0, ceil((limit - start) / delta))`, emit `fillSequence` at float32 over
that rank-1 shape, and cast back to the inputs' datatype. -/
def rangeAddToModelBuilderImpl (st : ModelBuilderState) (node : Node) :
    Except String ModelBuilderState :=
  match copyInputData st node 0 with
  | .error e => .error e
  | .ok start =>
  match copyInputData st node 1 with
  | .error e => .error e
  | .ok limit =>
  match copyInputData st node 2 with
  | .error e => .error e
  | .ok delta =>
  let shape : List Int := [max 0 ⌈(limit - start) / delta⌉]
  let output := Operand.fillSequence shape start delta
  match getInitializer st (node.inputDefs.getD 0 default).name with
  | none => .error "initializers.at: the input is not an initializer"
  | some tensor =>
  match GetWebNNType tensor.dataType with
  | .error e => .error e
  | .ok operand_type =>
    .ok (addOperand st (node.outputDefs.getD 0 default).name (.cast output operand_type))

/-- Modelled from the spec: `IsSupportedDataType` (its definition is in
repository code not among the provided files); §7(c): float32 everywhere,
plus int32/int64 for Range-family source data.  The Range support check only
logs its result. -/
def IsSupportedDataType (dataType : Int) : Bool :=
  decide (dataType = TensorProto_DataType_FLOAT ∨ dataType = TensorProto_DataType_INT32 ∨
    dataType = TensorProto_DataType_INT64)

/-- `RangeOpBuilder::IsOpSupportedImpl` (range_op_builder.cc:105-134): three
inputs required, all three must be initializers; the datatype check on the
first input only logs when it fails (no early return), so the function falls
through to `true` regardless of datatype. -/
def rangeIsOpSupportedImpl (initializers : List TensorProtoT) (node : Node) : Bool :=
  if node.inputDefs.length ≠ 3 then false
  else if ¬ ((findInitializerTensor initializers (node.inputDefs.getD 0 default).name).isSome ∧
             (findInitializerTensor initializers (node.inputDefs.getD 1 default).name).isSome ∧
             (findInitializerTensor initializers (node.inputDefs.getD 2 default).name).isSome) then
    false
  else
    let tensor_type :=
      ((findInitializerTensor initializers (node.inputDefs.getD 0 default).name).map
        TensorProtoT.dataType).getD 0
    let _unused := IsSupportedDataType tensor_type
    true

/-- A rank-2 float tensor argument with the given static dims. -/
def mkStaticArg (name : String) (dims : List Int) : NodeArg :=
  ⟨name, some (dims.map some), some TensorProto_DataType_FLOAT⟩

/-- `Gemm` with `A:[2,3]`, `B:[3,4]`, `C:[4]` (the claim's legal example). -/
def gemmLegalNode : Node :=
  { index := 0, name := "gemm_legal", opType := "Gemm",
    inputDefs := [mkStaticArg "A" [2, 3], mkStaticArg "B" [3, 4], mkStaticArg "C" [4]],
    outputDefs := [mkStaticArg "Y" [2, 4]],
    attributes := {} }

/-- `Gemm` with `A:[2,3]`, `B:[3,4]`, `C:[3]` (the claim's illegal example). -/
def gemmIllegalNode : Node :=
  { index := 0, name := "gemm_illegal", opType := "Gemm",
    inputDefs := [mkStaticArg "A" [2, 3], mkStaticArg "B" [3, 4], mkStaticArg "C" [3]],
    outputDefs := [mkStaticArg "Y" [2, 4]],
    attributes := {} }

/-- A builder state in which two distinct nodes (indices 1 and 2) are both
recorded fusible-activation candidates. -/
def fusionCexState : ModelBuilderState :=
  { activationNodes := [(1, .relu), (2, .relu)] }

/-- A producer node whose output `o` is consumed by both candidate nodes. -/
def fusionCexNode : Node :=
  { index := 0, name := "conv0", opType := "Conv",
    inputDefs := [], outputDefs := [⟨"o", none, none⟩],
    attributes := {}, outputEdges := [⟨1, "o"⟩, ⟨2, "o"⟩] }


/-- The builder state at the start of a compilation of an empty graph. -/
def emptyBuilderState : ModelBuilderState := {}

/-- A graph output `NodeArg` with the empty (rank-0) shape and float type. -/
def scalarOutArg : NodeArg := ⟨"out0", some [], some TensorProto_DataType_FLOAT⟩


/-- The recurrent weight initializer of the concrete GRU example. -/
def gruWitTensorR : TensorProtoT :=
  { name := "R", dims := [1, 9, 3], dataType := TensorProto_DataType_FLOAT, data := [] }

/-- A builder state with operands registered for a GRU node's three inputs. -/
def gruWitState : ModelBuilderState :=
  { initializers := [gruWitTensorR],
    operands := [("X", .input "X"), ("W", .const [1, 9, 3] []), ("R", .const [1, 9, 3] [])] }

/-- A GRU node with an explicit `activations = {Sigmoid, Tanh}` attribute. -/
def gruWitNode : Node :=
  { index := 0, name := "gru0", opType := "GRU",
    inputDefs := [⟨"X", some [some 4, some 1, some 3], some TensorProto_DataType_FLOAT⟩,
                  ⟨"W", some [some 1, some 9, some 3], some TensorProto_DataType_FLOAT⟩,
                  ⟨"R", some [some 1, some 9, some 3], some TensorProto_DataType_FLOAT⟩],
    outputDefs := [⟨"Y", none, some TensorProto_DataType_FLOAT⟩,
                   ⟨"Y_h", none, some TensorProto_DataType_FLOAT⟩],
    attributes := { stringLists := [("activations", ["Sigmoid", "Tanh"])] } }

/-- The same GRU node with no `activations` attribute, so the code applies
its default list. -/
def gruDefaultNode : Node :=
  { gruWitNode with attributes := {} }

/-- The builder state a successful lowering of `gruWitNode` produces. -/
def gruWitResult : ModelBuilderState :=
  match gruAddToModelBuilderImpl gruWitState gruWitNode with
  | .ok st2 => st2
  | .error _ => gruWitState

/-- A builder state in which operand `x` exists and is marked as already
fused into its producer. -/
def actWitState : ModelBuilderState :=
  { operands := [("x", .input "x")], fusedActivations := ["x"] }

/-- A Relu node reading `x` and writing `y`. -/
def actWitNode : Node :=
  { index := 1, name := "relu1", opType := "Relu",
    inputDefs := [⟨"x", some [some 2], some TensorProto_DataType_FLOAT⟩],
    outputDefs := [⟨"y", some [some 2], some TensorProto_DataType_FLOAT⟩],
    attributes := {} }


/-- A rank-0 float initializer holding one value. -/
def mkScalarInit (name : String) (v : ℚ) : TensorProtoT :=
  { name := name, dims := [], dataType := TensorProto_DataType_FLOAT, data := [v] }

/-- A Range node with start/limit/delta inputs and one output. -/
def rangeNode : Node :=
  { index := 0, name := "range0", opType := "Range",
    inputDefs := [⟨"start", some [], some TensorProto_DataType_FLOAT⟩,
                  ⟨"limit", some [], some TensorProto_DataType_FLOAT⟩,
                  ⟨"delta", some [], some TensorProto_DataType_FLOAT⟩],
    outputDefs := [⟨"range_out", some [some 5], some TensorProto_DataType_FLOAT⟩],
    attributes := {} }

/-- A builder state whose initializer table holds the three Range inputs. -/
def rangeState (a b c : ℚ) : ModelBuilderState :=
  { initializers := [mkScalarInit "start" a, mkScalarInit "limit" b, mkScalarInit "delta" c] }

/-- Range initializers whose first input has the unsupported string
datatype. -/
def rangeBadInits : List TensorProtoT :=
  [{ name := "start", dims := [], dataType := TensorProto_DataType_STRING, data := [] },
   mkScalarInit "limit" 5, mkScalarInit "delta" 1]

/-- The Range node over the bad-datatype initializers. -/
def rangeBadState : ModelBuilderState := { initializers := rangeBadInits }

/-- C4: for every Gemm node the support check returns true only under the
claim's shape conditions, and the claim's two concrete examples evaluate as
stated. -/
theorem gemm_support_only_if :
    (∀ node : Node, node.opType = "Gemm" → gemmIsOpSupportedImpl node = true →
      GemmClaimConditions node) ∧
    gemmIsOpSupportedImpl gemmLegalNode = true ∧
    gemmIsOpSupportedImpl gemmIllegalNode = false := by
  refine ⟨?_, by decide, by decide⟩
  intro node hty h
  unfold gemmIsOpSupportedImpl at h
  rw [if_pos hty] at h
  split at h
  · simp at h
  rename_i a_shape ha
  split at h
  · simp at h
  rename_i ha2
  rw [not_not] at ha2
  split at h
  · simp at h
  rename_i ha0
  split at h
  · simp at h
  rename_i b_shape hb
  split at h
  · simp at h
  rename_i hb2
  rw [not_not] at hb2
  split at h
  · simp at h
  rename_i hb0
  refine ⟨a_shape, b_shape, ha, ha2, ha0, hb, hb2, hb0, ?_⟩
  intro c_shape h3 hc hcne
  rw [if_pos h3] at h
  rw [hc] at h
  split at h
  · rename_i habs
    exact absurd habs (by simp)
  · rename_i c2 hc2
    injection hc2 with hceq
    subst hceq
    split at h
    · rename_i hc0
      exact absurd (List.length_eq_zero.mp hc0) hcne
    · simpa using h


/-- An edge that does not consume `out` changes nothing in the loop
characterization. -/
theorem findActivationLoop_skip_char (acts : List (Nat × FusionOp)) (out : String)
    (e : OutputEdge) (rest : List OutputEdge) (acc : Option FusionOp)
    (hname : ¬ e.dstInputName = out) :
    ((∀ e2 ∈ rest, e2.dstInputName = out → (alistGet acts e2.dstNodeIndex).isSome = true) ∧
     (acc.isSome = true ∨
       ∃ e2 ∈ rest, e2.dstInputName = out ∧ (alistGet acts e2.dstNodeIndex).isSome = true)) ↔
    ((∀ e2 ∈ e :: rest, e2.dstInputName = out → (alistGet acts e2.dstNodeIndex).isSome = true) ∧
     (acc.isSome = true ∨
       ∃ e2 ∈ e :: rest, e2.dstInputName = out ∧ (alistGet acts e2.dstNodeIndex).isSome = true)) := by
  constructor
  · rintro ⟨hall, hex⟩
    refine ⟨?_, ?_⟩
    · intro e2 he2 hc
      rcases List.mem_cons.mp he2 with rfl | he2
      · exact absurd hc hname
      · exact hall e2 he2 hc
    · rcases hex with hacc | ⟨e2, he2, hc, hs⟩
      · exact Or.inl hacc
      · exact Or.inr ⟨e2, List.mem_cons_of_mem _ he2, hc, hs⟩
  · rintro ⟨hall, hex⟩
    refine ⟨fun e2 he2 hc => hall e2 (List.mem_cons_of_mem _ he2) hc, ?_⟩
    rcases hex with hacc | ⟨e2, he2, hc, hs⟩
    · exact Or.inl hacc
    · rcases List.mem_cons.mp he2 with rfl | he2
      · exact absurd hc hname
      · exact Or.inr ⟨e2, he2, hc, hs⟩

/-- Loop invariant of `findActivationLoop`: the scan produces a non-null
handle exactly when every remaining consumer of the output is a recorded
activation candidate, and either the accumulator is already non-null or some
remaining edge consumes the output through a candidate. -/
theorem findActivationLoop_isSome (acts : List (Nat × FusionOp)) (out : String) :
    ∀ (edges : List OutputEdge) (acc : Option FusionOp),
      (findActivationLoop acts out edges acc).isSome = true ↔
        ((∀ e ∈ edges, e.dstInputName = out → (alistGet acts e.dstNodeIndex).isSome = true) ∧
         (acc.isSome = true ∨
           ∃ e ∈ edges, e.dstInputName = out ∧ (alistGet acts e.dstNodeIndex).isSome = true)) := by
  intro edges
  induction edges with
  | nil => intro acc; simp [findActivationLoop]
  | cons e rest ih =>
    intro acc
    simp only [findActivationLoop]
    cases hl : alistGet acts e.dstNodeIndex with
    | some handle =>
      dsimp only
      by_cases hname : e.dstInputName = out
      · rw [if_pos hname, ih]
        constructor
        · rintro ⟨hall, -⟩
          refine ⟨?_, Or.inr ⟨e, List.mem_cons_self e rest, hname, by rw [hl]; rfl⟩⟩
          intro e2 he2 hc
          rcases List.mem_cons.mp he2 with rfl | he2
          · rw [hl]; rfl
          · exact hall e2 he2 hc
        · rintro ⟨hall, -⟩
          exact ⟨fun e2 he2 hc => hall e2 (List.mem_cons_of_mem _ he2) hc, Or.inl rfl⟩
      · rw [if_neg hname, ih]
        exact findActivationLoop_skip_char acts out e rest acc hname
    | none =>
      dsimp only
      by_cases hname : e.dstInputName = out
      · rw [if_pos hname]
        simp only [Option.isSome_none, Bool.false_eq_true, false_iff, not_and]
        intro hall
        have hcontra := hall e (List.mem_cons_self e rest) hname
        rw [hl] at hcontra
        simp at hcontra
      · rw [if_neg hname, ih]
        exact findActivationLoop_skip_char acts out e rest acc hname

/-- C2 counterexample: with two distinct recorded activation-candidate nodes
(indices 1 and 2) both consuming output `o`, `FindActivation` still returns a
non-null fused handle, although the consumers are not one single candidate
node. -/
theorem findActivation_two_candidates_cex :
    ((FindActivation fusionCexState fusionCexNode "o").1).isSome = true ∧
    (∃ e1 ∈ fusionCexNode.outputEdges, ∃ e2 ∈ fusionCexNode.outputEdges,
      e1.dstInputName = "o" ∧ e2.dstInputName = "o" ∧ e1.dstNodeIndex ≠ e2.dstNodeIndex) := by
  constructor
  · rfl
  · exact ⟨⟨1, "o"⟩, by decide, ⟨2, "o"⟩, by decide, rfl, rfl, by decide⟩

/-- C2 (amended): `FindActivation` returns a non-null fused handle, and then
records the output name in the fused-name set, exactly when at least one
consumer of the output is a recorded fusible-activation candidate, every
consumer of the output is such a candidate (not necessarily a single node:
of several candidate consumers the last scanned one wins), and the output is
not a graph output; otherwise it returns the null handle and leaves the
builder state unchanged. -/
theorem findActivation_fusion_conditions (st : ModelBuilderState) (node : Node) (out : String) :
    ((FindActivation st node out).1.isSome = true ↔
      ((∃ e ∈ node.outputEdges, e.dstInputName = out ∧
          (alistGet st.activationNodes e.dstNodeIndex).isSome = true) ∧
       (∀ e ∈ node.outputEdges, e.dstInputName = out →
          (alistGet st.activationNodes e.dstNodeIndex).isSome = true) ∧
       out ∉ st.graphOutputs)) ∧
    ((FindActivation st node out).1.isSome = true →
      (FindActivation st node out).2 =
        { st with fusedActivations := setInsert st.fusedActivations out }) ∧
    ((FindActivation st node out).1 = none → (FindActivation st node out).2 = st) := by
  have hchar := findActivationLoop_isSome st.activationNodes out node.outputEdges none
  unfold FindActivation
  cases hres : findActivationLoop st.activationNodes out node.outputEdges none with
  | none =>
    rw [hres] at hchar
    dsimp only
    refine ⟨?_, by simp, fun _ => rfl⟩
    constructor
    · intro hfalse; simp at hfalse
    · rintro ⟨hex, hall, -⟩
      have hfalse : (none : Option FusionOp).isSome = true := hchar.mpr ⟨hall, Or.inr hex⟩
      simp at hfalse
  | some fused_op =>
    rw [hres] at hchar
    dsimp only
    obtain ⟨hall, hor⟩ := hchar.mp rfl
    have hex : ∃ e ∈ node.outputEdges, e.dstInputName = out ∧
        (alistGet st.activationNodes e.dstNodeIndex).isSome = true := by
      rcases hor with habs | hex
      · simp at habs
      · exact hex
    by_cases hout : out ∈ st.graphOutputs
    · rw [if_pos hout]
      refine ⟨?_, by simp, fun _ => rfl⟩
      constructor
      · intro hfalse; simp at hfalse
      · rintro ⟨-, -, hnout⟩
        exact absurd hout hnout
    · rw [if_neg hout]
      refine ⟨?_, fun _ => rfl, by simp⟩
      constructor
      · intro _
        exact ⟨hex, hall, hout⟩
      · intro _
        rfl


/-- `registerOneInitializer` never touches the skip set or the initializer
table. -/
theorem registerOneInitializer_frame (st : ModelBuilderState) (t : TensorProtoT)
    (st2 : ModelBuilderState) (h : registerOneInitializer st t = .ok st2) :
    st2.skippedInitializers = st.skippedInitializers := by
  unfold registerOneInitializer at h
  split at h
  · cases h; rfl
  · split at h
    · cases h; rfl
    · cases h

/-- `registerOneInitializer` leaves operand bindings of other names alone. -/
theorem registerOneInitializer_lookup (st : ModelBuilderState) (t : TensorProtoT)
    (st2 : ModelBuilderState) (h : registerOneInitializer st t = .ok st2)
    (name : String) (hne : name ≠ t.name) :
    alistGet st2.operands name = alistGet st.operands name := by
  unfold registerOneInitializer at h
  split at h
  · cases h; rfl
  · split at h
    · cases h
      simp [addOperand, alistGet, hne]
    · cases h

/-- The registration fold leaves operand bindings alone for every name that
is not one of the folded initializers. -/
theorem registerInitializersFrom_lookup (l : List TensorProtoT) :
    ∀ st st2, registerInitializersFrom st l = .ok st2 →
      ∀ name, name ∉ l.map TensorProtoT.name →
        alistGet st2.operands name = alistGet st.operands name := by
  induction l with
  | nil => intro st st2 h name _; cases h; rfl
  | cons t rest ih =>
    intro st st2 h name hname
    simp only [registerInitializersFrom] at h
    cases hreg : registerOneInitializer st t with
    | error e => rw [hreg] at h; cases h
    | ok st3 =>
      rw [hreg] at h
      have h1 : name ≠ t.name := by
        intro heq; exact hname (by simp [heq])
      have h2 : name ∉ rest.map TensorProtoT.name := by
        intro hmem; exact hname (by simp [hmem])
      rw [ih st3 st2 h name h2, registerOneInitializer_lookup st t st3 hreg name h1]

/-- A successful registration fold implies every non-skipped folded
initializer was float32 and ended bound to a backend constant carrying its
shape (a rank-0 initializer gets shape `[1]`) and payload. -/
theorem registerInitializersFrom_ok_spec (l : List TensorProtoT) :
    ∀ st st2, (l.map TensorProtoT.name).Nodup →
      registerInitializersFrom st l = .ok st2 →
      ∀ t ∈ l, t.name ∉ st.skippedInitializers →
        t.dataType = TensorProto_DataType_FLOAT ∧
        alistGet st2.operands t.name =
          some (.const (if t.dims = [] then [1] else t.dims) t.data) := by
  induction l with
  | nil => intro st st2 _ _ t ht; cases ht
  | cons t0 rest ih =>
    intro st st2 hnodup h t ht hskip
    simp only [registerInitializersFrom] at h
    cases hreg : registerOneInitializer st t0 with
    | error e => rw [hreg] at h; cases h
    | ok st3 =>
      rw [hreg] at h
      rcases List.mem_cons.mp ht with rfl | ht
      · have hreg2 := hreg
        unfold registerOneInitializer at hreg2
        rw [if_neg hskip] at hreg2
        by_cases hdt : t.dataType = TensorProto_DataType_FLOAT
        · rw [if_pos hdt] at hreg2
          refine ⟨hdt, ?_⟩
          have hnotin : t.name ∉ rest.map TensorProtoT.name := by
            simp only [List.map_cons, List.nodup_cons] at hnodup
            exact hnodup.1
          rw [registerInitializersFrom_lookup rest st3 st2 h t.name hnotin]
          cases hreg2
          simp [addOperand, alistGet]
        · rw [if_neg hdt] at hreg2; cases hreg2
      · have hskip3 : t.name ∉ st3.skippedInitializers := by
          rw [registerOneInitializer_frame st t0 st3 hreg]; exact hskip
        have hnd : (rest.map TensorProtoT.name).Nodup := by
          simp only [List.map_cons, List.nodup_cons] at hnodup
          exact hnodup.2
        exact ih st3 st2 hnd h t ht hskip3

/-- A non-skipped initializer of non-float32 datatype forces the registration
fold to fail. -/
theorem registerInitializersFrom_error (l : List TensorProtoT) :
    ∀ st, (∃ t ∈ l, t.name ∉ st.skippedInitializers ∧
        t.dataType ≠ TensorProto_DataType_FLOAT) →
      ∃ e, registerInitializersFrom st l = .error e := by
  induction l with
  | nil => intro st h; rcases h with ⟨t, ht, -⟩; cases ht
  | cons t0 rest ih =>
    intro st h
    simp only [registerInitializersFrom]
    cases hreg : registerOneInitializer st t0 with
    | error e => exact ⟨e, rfl⟩
    | ok st3 =>
      rcases h with ⟨t, ht, hskip, hdt⟩
      rcases List.mem_cons.mp ht with rfl | ht
      · exfalso
        unfold registerOneInitializer at hreg
        rw [if_neg hskip, if_neg hdt] at hreg
        cases hreg
      · have hskip3 : t.name ∉ st3.skippedInitializers := by
          rw [registerOneInitializer_frame st t0 st3 hreg]; exact hskip
        rcases ih st3 ⟨t, ht, hskip3, hdt⟩ with ⟨e, he⟩
        exact ⟨e, he⟩

/-- C6: under a successful `RegisterInitializers` pass, every graph
initializer outside the skip set is float32 and is bound to a backend
constant whose dimension list is the initializer's static shape, except that
a rank-0 initializer gets shape `[1]`; and any non-skipped initializer with a
non-float32 element datatype makes `RegisterInitializers` return a fatal
unsupported-type error, aborting the compilation. -/
theorem register_initializers_claim :
    (∀ st st2, (st.initializers.map TensorProtoT.name).Nodup →
      RegisterInitializers st = .ok st2 →
      ∀ t ∈ st.initializers, t.name ∉ st.skippedInitializers →
        t.dataType = TensorProto_DataType_FLOAT ∧
        alistGet st2.operands t.name =
          some (.const (if t.dims = [] then [1] else t.dims) t.data)) ∧
    (∀ st, (∃ t ∈ st.initializers, t.name ∉ st.skippedInitializers ∧
        t.dataType ≠ TensorProto_DataType_FLOAT) →
      ∃ e, RegisterInitializers st = .error e) := by
  constructor
  · intro st st2 hnodup h
    exact registerInitializersFrom_ok_spec st.initializers st st2 hnodup h
  · intro st h
    exact registerInitializersFrom_error st.initializers st h


/-- An inserted element is a member of an `unordered_set` after `insert`. -/
theorem mem_setInsert_self (s : List String) (x : String) : x ∈ setInsert s x := by
  unfold setInsert
  split
  · assumption
  · exact List.mem_cons_self x s

/-- C5: registering a graph output whose ONNX shape is the empty dimension
list records its name in the scalar-output set and registers the
backend-side shape `[1]` in the metadata table, and the compiled model's
`IsScalarOutput` answers true exactly for the recorded names. -/
theorem scalar_output_roundtrip (st : ModelBuilderState) (arg : NodeArg)
    (hshape : arg.shape = some []) (htype : arg.elemType = some TensorProto_DataType_FLOAT)
    (hfresh : alistGet st.inputOutputInfo arg.name = none) :
    ∃ st2, registerModelInputOutput st arg false = .ok st2 ∧
      arg.name ∈ st2.scalarOutputs ∧
      alistGet st2.inputOutputInfo arg.name = some ⟨TensorProto_DataType_FLOAT, [1]⟩ ∧
      ∀ name, ((compileModel st2).IsScalarOutput name = true ↔ name ∈ st2.scalarOutputs) := by
  have hres : registerModelInputOutput st arg false =
      .ok { st with
            scalarOutputs := setInsert st.scalarOutputs arg.name
            outputNames := st.outputNames ++ [arg.name]
            inputOutputInfo :=
              (arg.name, ⟨TensorProto_DataType_FLOAT, [1]⟩) :: st.inputOutputInfo } := by
    unfold registerModelInputOutput
    rw [hshape, htype]
    simp [emplaceInfo, hfresh, addScalarOutput]
  refine ⟨_, hres, ?_, ?_, ?_⟩
  · exact mem_setInsert_self st.scalarOutputs arg.name
  · simp [alistGet]
  · intro name
    simp [Model.IsScalarOutput, compileModel]

/-- Witness for C5 at a concrete empty builder state. -/
theorem scalar_output_roundtrip_witness :
    ∃ st2, registerModelInputOutput emptyBuilderState scalarOutArg false = .ok st2 ∧
      scalarOutArg.name ∈ st2.scalarOutputs ∧
      alistGet st2.inputOutputInfo scalarOutArg.name =
        some ⟨TensorProto_DataType_FLOAT, [1]⟩ ∧
      ∀ name, ((compileModel st2).IsScalarOutput name = true ↔ name ∈ st2.scalarOutputs) :=
  scalar_output_roundtrip emptyBuilderState scalarOutArg rfl rfl rfl


/-- The binding loops of `Predict` never issue the compute call. -/
theorem bindTensors_no_compute (isInput : Bool) :
    ∀ (ts : List (String × OnnxTensorData)) (b : WnnBindings),
      PredictEvent.computeSync ∉ (bindTensors isInput b ts).2.2 := by
  intro ts
  induction ts with
  | nil => intro b; simp [bindTensors]
  | cons p rest ih =>
    intro b
    obtain ⟨name, t⟩ := p
    simp only [bindTensors]
    split
    · intro hmem
      rcases List.mem_cons.mp hmem with heq | hmem2
      · revert heq
        split
        · intro heq; cases heq
        · intro heq; cases heq
      · exact ih _ hmem2
    · intro hmem
      simp at hmem

/-- A tensor with a non-float32 datatype makes the binding loop fail. -/
theorem bindTensors_error_of_bad (isInput : Bool) :
    ∀ (ts : List (String × OnnxTensorData)) (b : WnnBindings),
      (∃ p ∈ ts, p.2.info.dataType ≠ TensorProto_DataType_FLOAT) →
      (bindTensors isInput b ts).1.isSome = true := by
  intro ts
  induction ts with
  | nil =>
    intro b h
    rcases h with ⟨p, hp, -⟩
    cases hp
  | cons q rest ih =>
    intro b h
    obtain ⟨name, t⟩ := q
    simp only [bindTensors]
    split
    · rename_i hfl
      rcases h with ⟨p, hp, hdt⟩
      rcases List.mem_cons.mp hp with rfl | hp
      · exact absurd hfl hdt
      · exact ih _ ⟨p, hp, hdt⟩
    · rfl

/-- All-float32 tensors make the binding loop succeed. -/
theorem bindTensors_ok_of_float (isInput : Bool) :
    ∀ (ts : List (String × OnnxTensorData)) (b : WnnBindings),
      (∀ p ∈ ts, p.2.info.dataType = TensorProto_DataType_FLOAT) →
      (bindTensors isInput b ts).1 = none := by
  intro ts
  induction ts with
  | nil => intro b _; rfl
  | cons q rest ih =>
    intro b h
    obtain ⟨name, t⟩ := q
    simp only [bindTensors]
    split
    · exact ih _ (fun p hp => h p (List.mem_cons_of_mem _ hp))
    · rename_i hfl
      exact absurd (h (name, t) (List.mem_cons_self _ _)) hfl

/-- The status and event trace of a binding loop do not depend on the
bindings left behind by earlier calls. -/
theorem bindTensors_indep (isInput : Bool) :
    ∀ (ts : List (String × OnnxTensorData)) (b b2 : WnnBindings),
      (bindTensors isInput b ts).1 = (bindTensors isInput b2 ts).1 ∧
      (bindTensors isInput b ts).2.2 = (bindTensors isInput b2 ts).2.2 := by
  intro ts
  induction ts with
  | nil => intro b b2; exact ⟨rfl, rfl⟩
  | cons q rest ih =>
    intro b b2
    obtain ⟨name, t⟩ := q
    simp only [bindTensors]
    split
    · obtain ⟨hs, he⟩ := ih _ _
      exact ⟨hs, by rw [he]⟩
    · exact ⟨rfl, rfl⟩


/-- C9: a non-float32 named input or output tensor makes `Predict` return a
fatal type-mismatch error without issuing the backend compute call; the
status and event trace of any `Predict` call are independent of the model
state's leftover buffer bindings (so a failed call leaves the compiled model
valid and reusable, every later call behaving as on a fresh model); and an
all-float32 call succeeds and issues the single compute call. -/
theorem predict_type_mismatch_claim :
    (∀ (m : Model) (b : WnnBindings) (ins outs : List (String × OnnxTensorData)),
      (∃ p ∈ ins ++ outs, p.2.info.dataType ≠ TensorProto_DataType_FLOAT) →
      (Model.Predict m b ins outs).1.isSome = true ∧
        PredictEvent.computeSync ∉ (Model.Predict m b ins outs).2.2) ∧
    (∀ (m m2 : Model) (b b2 : WnnBindings) (ins outs : List (String × OnnxTensorData)),
      (Model.Predict m b ins outs).1 = (Model.Predict m2 b2 ins outs).1 ∧
      (Model.Predict m b ins outs).2.2 = (Model.Predict m2 b2 ins outs).2.2) ∧
    (∀ (m : Model) (b : WnnBindings) (ins outs : List (String × OnnxTensorData)),
      (∀ p ∈ ins ++ outs, p.2.info.dataType = TensorProto_DataType_FLOAT) →
      (Model.Predict m b ins outs).1 = none ∧
        PredictEvent.computeSync ∈ (Model.Predict m b ins outs).2.2) := by
  refine ⟨?_, ?_, ?_⟩
  · intro m b ins outs hbad
    unfold Model.Predict
    have hnc1 := bindTensors_no_compute true ins b
    rcases hbi : bindTensors true b ins with ⟨s1, b1, e1⟩
    rw [hbi] at hnc1
    cases s1 with
    | some e => exact ⟨rfl, hnc1⟩
    | none =>
      dsimp only
      have hnc2 := bindTensors_no_compute false outs b1
      rcases hbo : bindTensors false b1 outs with ⟨s2, b2x, e2⟩
      rw [hbo] at hnc2
      obtain ⟨p, hp, hdt⟩ := hbad
      rcases List.mem_append.mp hp with hin | hout
      · exfalso
        have hx := bindTensors_error_of_bad true ins b ⟨p, hin, hdt⟩
        rw [hbi] at hx
        simp at hx
      · have hs2 := bindTensors_error_of_bad false outs b1 ⟨p, hout, hdt⟩
        rw [hbo] at hs2
        cases s2 with
        | none => simp at hs2
        | some e =>
          refine ⟨rfl, ?_⟩
          intro hmem
          rcases List.mem_append.mp hmem with h1 | h2
          · exact hnc1 h1
          · exact hnc2 h2
  · intro m m2 b b2 ins outs
    unfold Model.Predict
    obtain ⟨hs1, he1⟩ := bindTensors_indep true ins b b2
    rcases hbi : bindTensors true b ins with ⟨s1, c1, e1⟩
    rcases hbi2 : bindTensors true b2 ins with ⟨s1q, c1q, e1q⟩
    rw [hbi, hbi2] at hs1 he1
    dsimp only at hs1 he1
    subst hs1
    subst he1
    cases s1 with
    | some e => exact ⟨rfl, rfl⟩
    | none =>
      dsimp only
      obtain ⟨hs2, he2⟩ := bindTensors_indep false outs c1 c1q
      rcases hbo : bindTensors false c1 outs with ⟨s2, d1, e2⟩
      rcases hbo2 : bindTensors false c1q outs with ⟨s2q, d1q, e2q⟩
      rw [hbo, hbo2] at hs2 he2
      dsimp only at hs2 he2
      subst hs2
      subst he2
      cases s2 with
      | some e => exact ⟨rfl, rfl⟩
      | none => exact ⟨rfl, rfl⟩
  · intro m b ins outs hall
    unfold Model.Predict
    have h1 := bindTensors_ok_of_float true ins b
      (fun p hp => hall p (List.mem_append_left _ hp))
    rcases hbi : bindTensors true b ins with ⟨s1, c1, e1⟩
    rw [hbi] at h1
    dsimp only at h1
    subst h1
    dsimp only
    have h2 := bindTensors_ok_of_float false outs c1
      (fun p hp => hall p (List.mem_append_right _ hp))
    rcases hbo : bindTensors false c1 outs with ⟨s2, d1, e2⟩
    rw [hbo] at h2
    dsimp only at h2
    subst h2
    exact ⟨rfl, by simp⟩


/-- C7: whenever GRU lowering succeeds on a node with two declared outputs,
the backend call's output at index 1 is registered under the node's first
ONNX output name and the backend output at index 0 under the second ONNX
output name — the swap relative to the backend's own order. -/
theorem gru_outputs_swapped (st : ModelBuilderState) (node : Node) (st2 : ModelBuilderState)
    (o0 o1 : NodeArg) (houts : node.outputDefs = [o0, o1]) (hne : o0.name ≠ o1.name)
    (hok : gruAddToModelBuilderImpl st node = .ok st2) :
    ∃ x w r steps hiddenSize bias recurrentBias initialHiddenState resetAfter direction
      rznLayout activations,
      alistGet st2.operands o0.name =
        some (.gru x w r steps hiddenSize bias recurrentBias initialHiddenState
          resetAfter true direction rznLayout activations 1) ∧
      alistGet st2.operands o1.name =
        some (.gru x w r steps hiddenSize bias recurrentBias initialHiddenState
          resetAfter true direction rznLayout activations 0) := by
  unfold gruAddToModelBuilderImpl at hok
  dsimp only at hok
  cases h0 : getOperandE st (node.inputDefs.getD 0 default).name with
  | error e => rw [h0] at hok; cases hok
  | ok input =>
    rw [h0] at hok
    dsimp only at hok
    cases h1 : getOperandE st (node.inputDefs.getD 1 default).name with
    | error e => rw [h1] at hok; cases hok
    | ok weight =>
      rw [h1] at hok
      dsimp only at hok
      cases h2 : getOperandE st (node.inputDefs.getD 2 default).name with
      | error e => rw [h2] at hok; cases hok
      | ok recurrentWeight =>
        rw [h2] at hok
        dsimp only at hok
        cases h3 : GetShape (node.inputDefs.getD 0 default) with
        | none => rw [h3] at hok; cases hok
        | some input_shape =>
          rw [h3] at hok
          dsimp only at hok
          cases h4 : getInitializer st (node.inputDefs.getD 2 default).name with
          | none => rw [h4] at hok; cases hok
          | some rwt =>
            rw [h4] at hok
            dsimp only at hok
            cases h5 : gruBiasOperands st node.inputDefs with
            | error e => rw [h5] at hok; cases hok
            | ok biasOps =>
              rw [h5] at hok
              dsimp only at hok
              cases h6 : gruInitialHiddenState st node.inputDefs with
              | error e => rw [h6] at hok; cases hok
              | ok ihs =>
                rw [h6] at hok
                dsimp only at hok
                cases h7 : buildGruActivations
                    (getStringListAttr node.attributes "activations" gruDefaultActivations) with
                | error e => rw [h7] at hok; cases hok
                | ok acts =>
                  rw [h7] at hok
                  dsimp only at hok
                  cases hok
                  refine ⟨input, weight, recurrentWeight,
                    (if node.inputDefs.length > 4 then
                      match getInitializer st (node.inputDefs.getD 4 default).name with
                      | some sequenceLens_tensor => sequenceLens_tensor.data.getD 0 0
                      | none => ((input_shape.getD 0 0 : Int) : ℚ)
                    else ((input_shape.getD 0 0 : Int) : ℚ)),
                    getIntAttr node.attributes "hidden_size" (rwt.dims.getD 2 0),
                    biasOps.1, biasOps.2, ihs,
                    decide (getIntAttr node.attributes "linear_before_reset" 0 ≠ 0),
                    (if getStringAttr node.attributes "direction" "forward" = "reverse" then
                      RecurrentNetworkDirection.backward
                    else if getStringAttr node.attributes "direction" "forward" = "bidirectional"
                      then RecurrentNetworkDirection.both
                    else RecurrentNetworkDirection.forward),
                    decide (getIntAttr node.attributes "layout" 0 = 1), acts, ?_, ?_⟩
                  · rw [houts]
                    simp [alistGet, addOperand, List.getD, List.get?, hne]
                  · rw [houts]
                    simp [alistGet, addOperand, List.getD, List.get?]

/-- Witness for C7: the concrete GRU node lowers successfully and its two
ONNX outputs are bound to the backend outputs in swapped order. -/
theorem gru_outputs_swapped_witness :
    ∃ x w r steps hiddenSize bias recurrentBias initialHiddenState resetAfter direction
      rznLayout activations,
      alistGet gruWitResult.operands "Y" =
        some (.gru x w r steps hiddenSize bias recurrentBias initialHiddenState
          resetAfter true direction rznLayout activations 1) ∧
      alistGet gruWitResult.operands "Y_h" =
        some (.gru x w r steps hiddenSize bias recurrentBias initialHiddenState
          resetAfter true direction rznLayout activations 0) :=
  gru_outputs_swapped gruWitState gruWitNode gruWitResult
    ⟨"Y", none, some TensorProto_DataType_FLOAT⟩
    ⟨"Y_h", none, some TensorProto_DataType_FLOAT⟩
    rfl (by decide) rfl


/-- C8: for a Relu or LeakyRelu node whose first input operand is registered,
lowering registers the output name to the very same input operand when the
input name is in the fused-activation set (identity pass-through, no op
emitted), and otherwise to the corresponding unary backend op (LeakyRelu
carrying the scalar `alpha` attribute, default 0.0). -/
theorem activation_fused_passthrough (st : ModelBuilderState) (node : Node) (input : Operand)
    (hin : alistGet st.operands (node.inputDefs.getD 0 default).name = some input)
    (hty : node.opType = "Relu" ∨ node.opType = "LeakyRelu") :
    ((node.inputDefs.getD 0 default).name ∈ st.fusedActivations →
      activationAddToModelBuilderImpl st node =
        .ok (addOperand st (node.outputDefs.getD 0 default).name input)) ∧
    ((node.inputDefs.getD 0 default).name ∉ st.fusedActivations →
      activationAddToModelBuilderImpl st node =
        .ok (addOperand st (node.outputDefs.getD 0 default).name
          (if node.opType = "Relu" then .relu input
           else .leakyRelu (getFloatAttr node.attributes "alpha" 0) input))) := by
  unfold activationAddToModelBuilderImpl getOperandE
  dsimp only
  rw [hin]
  rcases hty with h | h
  · constructor
    · intro hf
      have hf2 : (node.inputDefs[0]?.getD default).name ∈ st.fusedActivations := by simpa using hf
      simp [h, hf2]
    · intro hf
      have hf2 : ¬((node.inputDefs[0]?.getD default).name ∈ st.fusedActivations) := by simpa using hf
      simp [h, hf2]
  · constructor
    · intro hf
      have hf2 : (node.inputDefs[0]?.getD default).name ∈ st.fusedActivations := by simpa using hf
      simp [h, hf2]
    · intro hf
      have hf2 : ¬((node.inputDefs[0]?.getD default).name ∈ st.fusedActivations) := by simpa using hf
      simp [h, hf2]

/-- Witness for C8: the concrete fused Relu node becomes an identity
pass-through, registering `y` to the operand of `x` itself. -/
theorem activation_fused_passthrough_witness :
    (((actWitNode.inputDefs.getD 0 default).name ∈ actWitState.fusedActivations →
      activationAddToModelBuilderImpl actWitState actWitNode =
        .ok (addOperand actWitState (actWitNode.outputDefs.getD 0 default).name
          (.input "x"))) ∧
    ((actWitNode.inputDefs.getD 0 default).name ∉ actWitState.fusedActivations →
      activationAddToModelBuilderImpl actWitState actWitNode =
        .ok (addOperand actWitState (actWitNode.outputDefs.getD 0 default).name
          (if actWitNode.opType = "Relu" then .relu (.input "x")
           else .leakyRelu (getFloatAttr actWitNode.attributes "alpha" 0) (.input "x"))))) :=
  activation_fused_passthrough actWitState actWitNode (.input "x") rfl (Or.inl rfl)


/-- C1: with the `activations` attribute absent, the code's default list is
`{"Sigmod", "Tanh"}` (gru_op_builder.cc:117), and `"Sigmod"` matches none of
the supported names, so lowering an otherwise fully valid GRU node fails with
the fatal unsupported-activation error; explicitly named `Relu`/`Sigmoid`/
`Tanh` lists map in declared order and any other name is a fatal error. -/
theorem gru_default_activation_bug :
    gruAddToModelBuilderImpl gruWitState gruDefaultNode =
      .error "GruOpBuilder::AddToModelBuilderImpl, unsupported activation: Sigmod" ∧
    getStringListAttr gruDefaultNode.attributes "activations" gruDefaultActivations =
      ["Sigmod", "Tanh"] ∧
    buildGruActivations ["Sigmoid", "Tanh"] = .ok [.sigmoid, .tanh] ∧
    buildGruActivations ["Relu", "Sigmoid", "Tanh"] = .ok [.relu, .sigmoid, .tanh] ∧
    buildGruActivations ["Gelu"] =
      .error "GruOpBuilder::AddToModelBuilderImpl, unsupported activation: Gelu" :=
  ⟨rfl, rfl, rfl, rfl, rfl⟩

/-- C3: a successful Range lowering registers, under the node's output name,
a rank-1 `fillSequence` of length `max 0 ⌈(limit - start) / delta⌉` (never
negative) cast back to the inputs' datatype; concretely `start=0, limit=5,
delta=1` yields length 5 and `start=5, limit=0, delta=1` yields length 0. -/
theorem range_output_length_claim :
    (∀ st node st2, rangeAddToModelBuilderImpl st node = .ok st2 →
      ∃ start limit delta ty,
        copyInputData st node 0 = .ok start ∧
        copyInputData st node 1 = .ok limit ∧
        copyInputData st node 2 = .ok delta ∧
        alistGet st2.operands (node.outputDefs.getD 0 default).name =
          some (.cast (.fillSequence [max 0 ⌈(limit - start) / delta⌉] start delta) ty) ∧
        (0 : Int) ≤ max 0 ⌈(limit - start) / delta⌉) ∧
    rangeAddToModelBuilderImpl (rangeState 0 5 1) rangeNode =
      .ok (addOperand (rangeState 0 5 1) "range_out"
        (.cast (.fillSequence [5] 0 1) "float32")) ∧
    rangeAddToModelBuilderImpl (rangeState 5 0 1) rangeNode =
      .ok (addOperand (rangeState 5 0 1) "range_out"
        (.cast (.fillSequence [0] 5 1) "float32")) := by
  refine ⟨?_, ?_, ?_⟩
  · intro st node st2 hok
    unfold rangeAddToModelBuilderImpl at hok
    cases hc0 : copyInputData st node 0 with
    | error e => rw [hc0] at hok; cases hok
    | ok start =>
      rw [hc0] at hok
      dsimp only at hok
      cases hc1 : copyInputData st node 1 with
      | error e => rw [hc1] at hok; cases hok
      | ok limit =>
        rw [hc1] at hok
        dsimp only at hok
        cases hc2 : copyInputData st node 2 with
        | error e => rw [hc2] at hok; cases hok
        | ok delta =>
          rw [hc2] at hok
          dsimp only at hok
          cases hi : getInitializer st (node.inputDefs.getD 0 default).name with
          | none => rw [hi] at hok; cases hok
          | some t0 =>
            rw [hi] at hok
            dsimp only at hok
            cases ht : GetWebNNType t0.dataType with
            | error e => rw [ht] at hok; cases hok
            | ok ty =>
              rw [ht] at hok
              dsimp only at hok
              cases hok
              refine ⟨start, limit, delta, ty, rfl, rfl, rfl, ?_, le_max_left 0 _⟩
              simp [addOperand, alistGet]
  · have hstep : rangeAddToModelBuilderImpl (rangeState 0 5 1) rangeNode =
        .ok (addOperand (rangeState 0 5 1) "range_out"
          (.cast (.fillSequence [max 0 ⌈(((5 : ℚ) - 0) / 1)⌉] 0 1) "float32")) := rfl
    rw [hstep]
    norm_num
  · have hstep : rangeAddToModelBuilderImpl (rangeState 5 0 1) rangeNode =
        .ok (addOperand (rangeState 5 0 1) "range_out"
          (.cast (.fillSequence [max 0 ⌈(((0 : ℚ) - 5) / 1)⌉] 5 1) "float32")) := rfl
    rw [hstep]
    have hc : (⌈(((0 : ℚ) - 5) / 1)⌉ : Int) = -5 := by
      rw [show (((0 : ℚ) - 5) / 1) = ((-5 : Int) : ℚ) by norm_num]
      exact Int.ceil_intCast (-5)
    rw [hc]
    norm_num

/-- C10: a Range node with exactly three initializer inputs is reported
supported regardless of the first input's element datatype (the datatype
check only logs); with a string-typed start input the support check still
answers true while the actual lowering fails with a datatype error. -/
theorem range_support_ignores_datatype :
    (∀ (initializers : List TensorProtoT) (node : Node),
      node.inputDefs.length = 3 →
      (findInitializerTensor initializers (node.inputDefs.getD 0 default).name).isSome = true →
      (findInitializerTensor initializers (node.inputDefs.getD 1 default).name).isSome = true →
      (findInitializerTensor initializers (node.inputDefs.getD 2 default).name).isSome = true →
      rangeIsOpSupportedImpl initializers node = true) ∧
    rangeIsOpSupportedImpl rangeBadInits rangeNode = true ∧
    IsSupportedDataType (((findInitializerTensor rangeBadInits
      (rangeNode.inputDefs.getD 0 default).name).map TensorProtoT.dataType).getD 0) = false ∧
    (∃ e, rangeAddToModelBuilderImpl rangeBadState rangeNode = .error e) := by
  refine ⟨?_, by rfl, by rfl, ⟨"Unsupported data type: ", by rfl⟩⟩
  intro initializers node h3 hi0 hi1 hi2
  have hj0 : (findInitializerTensor initializers
      (node.inputDefs[0]?.getD default).name).isSome = true := by simpa using hi0
  have hj1 : (findInitializerTensor initializers
      (node.inputDefs[1]?.getD default).name).isSome = true := by simpa using hi1
  have hj2 : (findInitializerTensor initializers
      (node.inputDefs[2]?.getD default).name).isSome = true := by simpa using hi2
  unfold rangeIsOpSupportedImpl
  rw [if_neg (by simp [h3]),
    if_neg (by simp [hj0, hj1, hj2, Option.ne_none_iff_isSome])]

end ORTWebNN
